import Mathlib

/-!
Shallow embedding of `src/main.py`, a FastAPI backend exposing
`GET /test` (database health probe) and `POST /generate-report`
(placeholder PDF generation via reportlab).

Pure Python expressions (string manipulation, the content-building loop,
filename resolution, `os.path.join`) are translated directly into Lean
functions.  Effectful operations (the `database` import probe,
`db.list_collection_names()`, `os.makedirs`, `doc.build`) are modelled by
explicit outcome parameters (`DbProbe`, `Except String Unit`), so that the
`try/except` control flow of the handlers becomes explicit case analysis.
-/

namespace Main

/-- The request model of `POST /generate-report` (`class ReportRequest`,
`src/main.py` lines 17-29).  `pages` is an `int` with pydantic constraints
`ge=1, le=200`; `filename` is `Optional[str]`. -/
structure ReportRequest where
  title : String
  pages : Int
  section_title : String
  section_body : String
  filename : Option String
deriving Repr, DecidableEq

/-- Pydantic validation of the `pages` field, `Field(default=80, ge=1, le=200)`
(`src/main.py` line 19). -/
def validPages (pages : Int) : Bool :=
  decide (1 ≤ pages) && decide (pages ≤ 200)

/-- Python `s.startswith(pre)`, by code points. -/
def pyStartsWith (s pre : String) : Bool :=
  List.isPrefixOf pre.data s.data

/-- Python `s.endswith(suf)`, by code points. -/
def pyEndsWith (s suf : String) : Bool :=
  List.isSuffixOf suf.data s.data

/-- Python `s.lower()`, modelled code-point-wise with `Char.toLower`
(faithful on the ASCII letters relevant here). -/
def pyLower (s : String) : String :=
  ⟨s.data.map Char.toLower⟩

/-- Python `s[:n]`: the first `n` code points of `s`. -/
def pyTake (n : Nat) (s : String) : String :=
  ⟨s.data.take n⟩

/-- Python `s.replace(chr, repl)` for a single-character pattern, on code
point lists. -/
def pyReplaceCharList (c : Char) (repl : List Char) : List Char → List Char
  | [] => []
  | x :: xs =>
      if x = c then repl ++ pyReplaceCharList c repl xs
      else x :: pyReplaceCharList c repl xs

/-- `payload.section_body.replace(chr(10), "<br/>")` from `src/main.py`
line 113. -/
def pyReplaceNl (s : String) : String :=
  ⟨pyReplaceCharList '\n' "<br/>".data s.data⟩

/-- `os.path.join(a, b)` with POSIX separator, as in CPython `posixpath.join`
for two arguments: an absolute second component discards the first. -/
def posixJoin (a b : String) : String :=
  if pyStartsWith b "/" then b
  else if a = "" ∨ pyEndsWith a "/" then a ++ b
  else a ++ "/" ++ b

/-- Filename resolution of `src/main.py` lines 121-123:
`safe_name = payload.filename or "Web_Seminar_Report_80Pages.pdf"` followed by
appending `".pdf"` unless `safe_name.lower().endswith(".pdf")`.
Python truthiness makes both `None` and `""` fall back to the default. -/
def resolveFilename (filename : Option String) : String :=
  let safeName :=
    match filename with
    | none => "Web_Seminar_Report_80Pages.pdf"
    | some s => if s = "" then "Web_Seminar_Report_80Pages.pdf" else s
  if ! pyEndsWith (pyLower safeName) ".pdf" then safeName ++ ".pdf" else safeName

/-- `file_path = os.path.join(out_dir, safe_name)` with `out_dir = "/mnt/data"`
(`src/main.py` lines 124-126). -/
def filePathOf (filename : Option String) : String :=
  posixJoin "/mnt/data" (resolveFilename filename)

/-- The two paragraph styles used by the handler: `styles["Title"]` for the
intro block and the justified `Body` style for section blocks. -/
inductive StyleKind where
  | title
  | body
deriving Repr, DecidableEq

/-- One entry of the reportlab `content` list: either a `Paragraph(text, style)`
or a `PageBreak()`. -/
inductive Block where
  | para (style : StyleKind) (text : String)
  | pageBreak
deriving Repr, DecidableEq

/-- Is the block a `Paragraph` (a content block, as opposed to a page break)? -/
def isPara : Block → Bool
  | .para _ _ => true
  | .pageBreak => false

/-- Is the block the title paragraph? -/
def isTitlePara : Block → Bool
  | .para .title _ => true
  | _ => false

/-- Is the block a body-section paragraph? -/
def isBodyPara : Block → Bool
  | .para .body _ => true
  | _ => false

/-- The `intro_text` f-string of `src/main.py` lines 104-107, with the
interpolated title. -/
def introHtml (title : String) : String :=
  "\n        <b>" ++ title ++
    "</b><br/><br/>\n        This report provides an extensive analysis of the Web, its evolution, architecture, technologies, applications, and future trends.\n        "

/-- The `section_html` f-string of `src/main.py` lines 111-114, with the
interpolated section title and the newline-replaced section body. -/
def sectionHtml (sectionTitle sectionBody : String) : String :=
  "\n        <b>" ++ sectionTitle ++ "</b><br/><br/>\n        " ++
    pyReplaceNl sectionBody ++ "\n        "

/-- `pages_to_add = max(payload.pages - 1, 1)` (`src/main.py` line 116). -/
def pages_to_add (pages : Int) : Int :=
  max (pages - 1) 1

/-- The `content` list built by `generate_report` (`src/main.py` lines
102-119): the intro paragraph plus a page break, then `pages_to_add`
repetitions of the section paragraph each followed by a page break. -/
def buildContent (payload : ReportRequest) : List Block :=
  [Block.para StyleKind.title (introHtml payload.title), Block.pageBreak] ++
    (List.replicate (pages_to_add payload.pages).toNat
      [Block.para StyleKind.body (sectionHtml payload.section_title payload.section_body),
       Block.pageBreak]).flatten

/-- Every `Paragraph` in the list is immediately followed by a `PageBreak`. -/
def parasFollowedByBreak : List Block → Bool
  | [] => true
  | Block.pageBreak :: rest => parasFollowedByBreak rest
  | Block.para _ _ :: Block.pageBreak :: rest => parasFollowedByBreak rest
  | Block.para _ _ :: _ => false

/-- The `raise HTTPException(status_code=..., detail=...)` payload. -/
structure HTTPError where
  status_code : Nat
  detail : String
deriving Repr, DecidableEq

/-- The success body of `generate_report`: status `"ok"` plus the output
file path. -/
structure GenResult where
  status : String
  file_path : String
deriving Repr, DecidableEq

/-- The `generate_report` handler body (`src/main.py` lines 88-132).  The two
effectful steps inside the `try` block — `os.makedirs(out_dir, exist_ok=True)`
and `doc.build(content)` — are modelled by the outcome parameters `makedirs`
and `docBuild`; any exception they raise is caught by the surrounding
`except Exception` and re-raised as `HTTPException(500, str(e))`. -/
def generateReport (payload : ReportRequest)
    (makedirs : Except String Unit)
    (docBuild : List Block → Except String Unit) :
    Except HTTPError GenResult :=
  let content := buildContent payload
  let filePath := filePathOf payload.filename
  match makedirs with
  | .error e => .error ⟨500, e⟩
  | .ok _ =>
      match docBuild content with
      | .error e => .error ⟨500, e⟩
      | .ok _ => .ok ⟨"ok", filePath⟩

/-- `POST /generate-report` as dispatched by FastAPI: pydantic validates the
request body (in particular `pages` against `ge=1, le=200`, `src/main.py`
line 19) and rejects invalid bodies with a 422 client error before the
handler runs. -/
def postGenerateReport (payload : ReportRequest)
    (makedirs : Except String Unit)
    (docBuild : List Block → Except String Unit) :
    Except HTTPError GenResult :=
  if validPages payload.pages then generateReport payload makedirs docBuild
  else .error ⟨422, "validation error"⟩

/-- The response dictionary of `GET /test` (`src/main.py` lines 45-52).
`database_url` and `database_name` start out as Python `None`, hence
`Option String`. -/
structure TestResponse where
  backend : String
  database : String
  database_url : Option String
  database_name : Option String
  connection_status : String
  collections : List String
deriving Repr, DecidableEq

/-- Outcome of the probe `from database import db` and the subsequent use of
`db` (`src/main.py` lines 54-77): the import may raise `ImportError` or
another exception, `db` may be `None`, and otherwise `db` may or may not have
a `name` attribute and `db.list_collection_names()` either returns a list or
raises. -/
inductive DbProbe where
  | importError
  | otherError (msg : String)
  | dbNone
  | dbSome (name : Option String) (listResult : Except String (List String))
deriving Repr

/-- The `test_database` handler of `GET /test` (`src/main.py` lines 42-84),
parameterised by the probe outcome and by the presence of the `DATABASE_URL`
and `DATABASE_NAME` environment variables.  Record updates mirror the
sequential dictionary assignments of the handler, including the final
overwrite of `database_url` and `database_name` by the environment check. -/
def test_database (probe : DbProbe) (urlSet nameSet : Bool) : TestResponse :=
  let response : TestResponse :=
    { backend := "✅ Running"
      database := "❌ Not Available"
      database_url := none
      database_name := none
      connection_status := "Not Connected"
      collections := [] }
  let response :=
    match probe with
    | .importError =>
        { response with database := "❌ Database module not found (run enable-database first)" }
    | .otherError e =>
        { response with database := "❌ Error: " ++ pyTake 50 e }
    | .dbNone =>
        { response with database := "⚠️  Available but not initialized" }
    | .dbSome name listResult =>
        let response :=
          { response with
              database := "✅ Available"
              database_url := some "✅ Configured"
              database_name := some (match name with | some n => n | none => "✅ Connected")
              connection_status := "Connected" }
        match listResult with
        | .ok collections =>
            { response with
                collections := collections.take 10
                database := "✅ Connected & Working" }
        | .error e =>
            { response with database := "⚠️  Connected but Error: " ++ pyTake 50 e }
  { response with
      database_url := some (if urlSet then "✅ Set" else "❌ Not Set")
      database_name := some (if nameSet then "✅ Set" else "❌ Not Set") }

end Main

namespace Main

lemma countP_flatten_replicate (p : Block → Bool) (l : List Block) (n : Nat) :
    ((List.replicate n l).flatten).countP p = n * l.countP p := by
  induction n with
  | zero => simp
  | succ k ih =>
      rw [List.replicate_succ, List.flatten_cons, List.countP_append, ih]
      ring

lemma pfb_flatten_replicate (txt : String) (n : Nat) :
    parasFollowedByBreak
      ((List.replicate n [Block.para StyleKind.body txt, Block.pageBreak]).flatten) = true := by
  induction n with
  | zero => rfl
  | succ k ih =>
      rw [List.replicate_succ, List.flatten_cons]
      simpa [parasFollowedByBreak] using ih

lemma newline_not_mem_replace (l : List Char) :
    '\n' ∉ pyReplaceCharList '\n' "<br/>".data l := by
  induction l with
  | nil => simp [pyReplaceCharList]
  | cons c cs ih =>
      simp only [pyReplaceCharList]
      by_cases hc : c = '\n'
      · rw [if_pos hc]
        intro hmem
        rcases List.mem_append.mp hmem with h | h
        · revert h
          decide
        · exact ih h
      · rw [if_neg hc]
        intro hmem
        rcases List.mem_cons.mp hmem with h | h
        · exact hc h.symm
        · exact ih h

/-- C1: for every request with `pages` in `[1, 200]`, `generate_report` builds
exactly `max(pages - 1, 1) + 1` content blocks — one title paragraph plus
`max(pages - 1, 1)` section paragraphs — each immediately followed by a page
break; the build is total (no exception) on the whole range. -/
theorem c1_content_blocks (payload : ReportRequest)
    (_h1 : 1 ≤ payload.pages) (_h2 : payload.pages ≤ 200) :
    (buildContent payload).countP isPara = (max (payload.pages - 1) 1).toNat + 1
    ∧ (buildContent payload).countP isTitlePara = 1
    ∧ (buildContent payload).countP isBodyPara = (max (payload.pages - 1) 1).toNat
    ∧ parasFollowedByBreak (buildContent payload) = true := by
  refine ⟨?_, ?_, ?_, ?_⟩
  · simp [buildContent, List.countP_append, countP_flatten_replicate, List.countP_cons,
      isPara, pages_to_add]
  · simp [buildContent, List.countP_append, countP_flatten_replicate, List.countP_cons,
      isTitlePara, pages_to_add]
  · simp [buildContent, List.countP_append, countP_flatten_replicate, List.countP_cons,
      isBodyPara, pages_to_add]
  · have h := pfb_flatten_replicate (sectionHtml payload.section_title payload.section_body)
      (pages_to_add payload.pages).toNat
    simpa [buildContent, parasFollowedByBreak] using h

theorem c1_content_blocks_witness :
    (buildContent ⟨"t", 1, "s", "b", none⟩).countP isPara = (max ((1 : Int) - 1) 1).toNat + 1
    ∧ (buildContent ⟨"t", 1, "s", "b", none⟩).countP isTitlePara = 1
    ∧ (buildContent ⟨"t", 1, "s", "b", none⟩).countP isBodyPara = (max ((1 : Int) - 1) 1).toNat
    ∧ parasFollowedByBreak (buildContent ⟨"t", 1, "s", "b", none⟩) = true :=
  c1_content_blocks ⟨"t", 1, "s", "b", none⟩ (by decide) (by decide)

/-- C2 counterexample: the filename `"/etc/passwd"` is accepted unchanged by
`os.path.join`, so the returned path `"/etc/passwd.pdf"` lies outside the
output directory `/mnt/data` — the claim that no filename value escapes the
directory is false. -/
theorem c2_counterexample :
    filePathOf (some "/etc/passwd") = "/etc/passwd.pdf"
    ∧ pyStartsWith (filePathOf (some "/etc/passwd")) "/mnt/data/" = false := by
  decide

/-- C2 amended: the returned path is `os.path.join("/mnt/data", name)` for the
resolved filename `name`: when `name` is not an absolute path the result is
`"/mnt/data/" ++ name`, but an absolute `name` replaces the output directory
entirely (and `..` segments are not removed), so containment in `/mnt/data`
is not guaranteed. -/
theorem c2_amended_path_join (fn : Option String) :
    filePathOf fn =
      (if pyStartsWith (resolveFilename fn) "/" then resolveFilename fn
       else "/mnt/data/" ++ resolveFilename fn) := by
  unfold filePathOf posixJoin
  by_cases h : pyStartsWith (resolveFilename fn) "/"
  · simp [h]
  · simp only [h, Bool.false_eq_true, if_false]
    rw [if_neg (by decide)]
    exact congrArg (fun x => x ++ resolveFilename fn) (by decide)

/-- C3: a request whose `pages` lies outside `[1, 200]` fails pydantic
validation and is rejected with a client error before the generation handler
runs — the result is the 422 error, independent of the directory-creation and
document-build effects, so no content is built and no file is written. -/
theorem c3_out_of_range_rejected (payload : ReportRequest)
    (makedirs : Except String Unit) (docBuild : List Block → Except String Unit)
    (h : payload.pages < 1 ∨ 200 < payload.pages) :
    postGenerateReport payload makedirs docBuild = Except.error ⟨422, "validation error"⟩ := by
  have hv : validPages payload.pages = false := by
    rcases h with h | h <;> simp [validPages] <;> omega
  simp [postGenerateReport, hv]

theorem c3_out_of_range_rejected_witness :
    postGenerateReport ⟨"t", 0, "s", "b", none⟩ (Except.ok ()) (fun _ => Except.ok ()) =
      Except.error ⟨422, "validation error"⟩ :=
  c3_out_of_range_rejected ⟨"t", 0, "s", "b", none⟩ (Except.ok ()) (fun _ => Except.ok ())
    (Or.inl (by decide))

/-- C4 counterexample: `"report.PDF"` does not end in the literal suffix
`".pdf"`, yet the code appends nothing (the check is on the lowercased name),
so the extension is not appended "exactly when the filename does not already
end in '.pdf'". -/
theorem c4_counterexample :
    pyEndsWith "report.PDF" ".pdf" = false
    ∧ resolveFilename (some "report.PDF") = "report.PDF" := by
  decide

/-- C4 amended: the resolved filename equals the fixed default when `filename`
is absent or empty, and otherwise equals the supplied filename with `".pdf"`
appended exactly when it does not already end in `".pdf"` case-insensitively;
`"report"` resolves to `"report.pdf"` and `"report.pdf"` is unchanged. -/
theorem c4_filename_resolution :
    resolveFilename none = "Web_Seminar_Report_80Pages.pdf"
    ∧ resolveFilename (some "") = "Web_Seminar_Report_80Pages.pdf"
    ∧ resolveFilename (some "report") = "report.pdf"
    ∧ resolveFilename (some "report.pdf") = "report.pdf"
    ∧ ∀ s : String, s ≠ "" →
        resolveFilename (some s) =
          (if pyEndsWith (pyLower s) ".pdf" then s else s ++ ".pdf") := by
  refine ⟨by decide, by decide, by decide, by decide, ?_⟩
  intro s hs
  simp only [resolveFilename, if_neg hs]
  cases hb : pyEndsWith (pyLower s) ".pdf" <;> simp [hb]

theorem c4_filename_resolution_witness :
    resolveFilename (some "report") =
      (if pyEndsWith (pyLower "report") ".pdf" then "report" else "report" ++ ".pdf") :=
  c4_filename_resolution.2.2.2.2 "report" (by decide)

/-- C5: every newline of `section_body` is replaced by `"<br/>"` before
layout, so the replaced body inserted into the section block contains no
literal newline character originating from `section_body`. -/
theorem c5_newlines_replaced (body : String) :
    '\n' ∉ (pyReplaceNl body).data :=
  newline_not_mem_replace body.data

/-- C6: `GET /test` is total over every probe outcome (the handler never
raises); when the database module is missing, the handle is uninitialized,
the import errors, or listing collections errors, the returned status object
carries a not-available or error indicator in `database` and the backend
banner is still reported. -/
theorem c6_test_never_raises (urlSet nameSet : Bool) (msg : String) (nm : Option String) :
    (test_database DbProbe.importError urlSet nameSet).database =
        "❌ Database module not found (run enable-database first)"
    ∧ (test_database DbProbe.dbNone urlSet nameSet).database =
        "⚠️  Available but not initialized"
    ∧ (test_database (DbProbe.otherError msg) urlSet nameSet).database =
        "❌ Error: " ++ pyTake 50 msg
    ∧ (test_database (DbProbe.dbSome nm (Except.error msg)) urlSet nameSet).database =
        "⚠️  Connected but Error: " ++ pyTake 50 msg
    ∧ (test_database DbProbe.importError urlSet nameSet).backend = "✅ Running" :=
  ⟨rfl, rfl, rfl, rfl, rfl⟩

/-- C7: any exception raised by the effectful steps inside the handler's
`try` block (directory creation or document build/write) is caught and
surfaced as `HTTPException(500, str(e))` with the underlying message. -/
theorem c7_exceptions_become_500 (payload : ReportRequest)
    (makedirs : Except String Unit) (docBuild : List Block → Except String Unit)
    (e : String)
    (h : makedirs = Except.error e ∨
         (makedirs = Except.ok () ∧ docBuild (buildContent payload) = Except.error e)) :
    generateReport payload makedirs docBuild = Except.error ⟨500, e⟩ := by
  rcases h with h | ⟨h1, h2⟩
  · simp [generateReport, h]
  · simp [generateReport, h1, h2]

theorem c7_exceptions_become_500_witness :
    generateReport ⟨"t", 2, "s", "b", none⟩ (Except.error "boom") (fun _ => Except.ok ()) =
      Except.error ⟨500, "boom"⟩ :=
  c7_exceptions_become_500 ⟨"t", 2, "s", "b", none⟩ (Except.error "boom") (fun _ => Except.ok ())
    "boom" (Or.inl rfl)

/-- C8: every `GET /test` response carries at most 10 collection names
(`collections[:10]`), and a probe error message embedded in the `database`
field is truncated to at most 50 code points of the exception text
(`str(e)[:50]`). -/
theorem c8_truncation (probe : DbProbe) (urlSet nameSet : Bool) (msg : String)
    (nm : Option String) :
    (test_database probe urlSet nameSet).collections.length ≤ 10
    ∧ (pyTake 50 msg).data.length ≤ 50
    ∧ (test_database (DbProbe.otherError msg) urlSet nameSet).database =
        "❌ Error: " ++ pyTake 50 msg
    ∧ (test_database (DbProbe.dbSome nm (Except.error msg)) urlSet nameSet).database =
        "⚠️  Connected but Error: " ++ pyTake 50 msg := by
  refine ⟨?_, ?_, rfl, rfl⟩
  · cases probe with
    | importError => simp [test_database]
    | otherError e => simp [test_database]
    | dbNone => simp [test_database]
    | dbSome nm2 lr =>
        cases lr with
        | ok l => simp [test_database, List.length_take_le]
        | error e => simp [test_database]
  · simp [pyTake, List.length_take_le]

/-- C9: the `.pdf` extension check lowercases the name first, so any non-empty
filename already ending in `".pdf"` in any letter casing is kept unchanged —
in particular the resolved name keeps the original casing. -/
theorem c9_pdf_check_case_insensitive (s : String) (h1 : s ≠ "")
    (h2 : pyEndsWith (pyLower s) ".pdf" = true) :
    resolveFilename (some s) = s := by
  simp [resolveFilename, h1, h2]

theorem c9_pdf_check_case_insensitive_witness :
    resolveFilename (some "report.PDF") = "report.PDF" :=
  c9_pdf_check_case_insensitive "report.PDF" (by decide) (by decide)

/-- C10: in every `GET /test` response, `database_url` and `database_name`
are determined solely by the presence of the `DATABASE_URL` and
`DATABASE_NAME` environment variables — the values assigned in the
connected-database branch are always overwritten by the final environment
check, for every probe outcome. -/
theorem c10_env_overwrites_db_fields (probe : DbProbe) (urlSet nameSet : Bool) :
    (test_database probe urlSet nameSet).database_url =
        some (if urlSet then "✅ Set" else "❌ Not Set")
    ∧ (test_database probe urlSet nameSet).database_name =
        some (if nameSet then "✅ Set" else "❌ Not Set") :=
  ⟨rfl, rfl⟩

end Main
